import Mathlib

/-!
Verification of the `TimeTracker` / `EditingSession` core of
src/time_tracker.py.

Shallow embedding of the segment editing-time tracker.  Wall-clock
timestamps and durations are rationals (seconds); every operation takes
the current wall-clock value `now` explicitly (the Python code reads
`datetime.now()`; the spec treats the clock as injectable).  The
Streamlit flag `st.session_state.get('idle_timer_enabled', True)` is an
external boolean passed as the `idleEnabled` argument to the operations
that read it.
-/

namespace UniOrPET

/-- The idle threshold, `TimeTracker.IDLE_THRESHOLD = 30` seconds. -/
def IDLE_THRESHOLD : ℚ := 30

/-- Dataclass `EditingSession` from src/time_tracker.py. -/
structure EditingSession where
  start_time : ℚ
  pause_time : Option ℚ := none
  total_paused_time : ℚ := 0
  is_paused : Bool := false
  last_activity : ℚ
  active_time : ℚ := 0
  idle_time : ℚ := 0
  is_pet_paused : Bool := false
  deriving Repr, DecidableEq

/-- The tracker: a finite map from segment id to session (association
list with at most one entry per key, mirroring the Python dict), plus
the global timer mode string (`"current"` or `"pet"`). -/
structure TimeTracker where
  sessions : List (Int × EditingSession) := []
  timer_mode : String := "current"
  deriving Repr, DecidableEq

/-- Dict membership / lookup: `self.sessions[segment_id]` when
`segment_id in self.sessions`. -/
def lookupSession : List (Int × EditingSession) → Int → Option EditingSession
  | [], _ => none
  | (k, s) :: rest, id => if k = id then some s else lookupSession rest id

/-- Dict assignment `self.sessions[segment_id] = session`: replaces the
entry when the key is present, appends it otherwise. -/
def updateSession : List (Int × EditingSession) → Int → EditingSession →
    List (Int × EditingSession)
  | [], id, s => [(id, s)]
  | (k, s0) :: rest, id, s =>
      if k = id then (id, s) :: rest else (k, s0) :: updateSession rest id s

namespace TimeTracker

/-- Embeds `TimeTracker.set_timer_mode`. -/
def set_timer_mode (trk : TimeTracker) (mode : String) : TimeTracker :=
  { trk with timer_mode := mode }

/-- Embeds `TimeTracker.start_segment`.  A fresh session starts paused exactly
when the mode is `"pet"`; an existing session is forced back into
pet-paused state when the mode is `"pet"` and it is not already. -/
def start_segment (trk : TimeTracker) (now : ℚ) (segment_id : Int) : TimeTracker :=
  match lookupSession trk.sessions segment_id with
  | none =>
      let is_pet_paused := trk.timer_mode = "pet"
      let session : EditingSession :=
        { start_time := now
          last_activity := now
          is_pet_paused := is_pet_paused
          is_paused := is_pet_paused }
      { trk with sessions := updateSession trk.sessions segment_id session }
  | some session =>
      if trk.timer_mode = "pet" ∧ ¬ session.is_pet_paused then
        let session :=
          { session with
              is_pet_paused := true
              is_paused := true
              pause_time := some now }
        { trk with sessions := updateSession trk.sessions segment_id session }
      else trk

/-- Embeds `TimeTracker.pause_segment`. -/
def pause_segment (trk : TimeTracker) (now : ℚ) (idleEnabled : Bool)
    (segment_id : Int) : TimeTracker :=
  match lookupSession trk.sessions segment_id with
  | none => trk
  | some session =>
      if session.is_paused then trk
      else
        let time_since_last := now - session.last_activity
        let session :=
          if time_since_last ≤ IDLE_THRESHOLD ∨ ¬ idleEnabled then
            { session with active_time := session.active_time + time_since_last }
          else session
        let session :=
          { session with
              pause_time := some now
              is_paused := true
              last_activity := now }
        { trk with sessions := updateSession trk.sessions segment_id session }

/-- Embeds `TimeTracker.resume_segment`.  Resuming is refused when the mode is
`"pet"` and the session is pet-paused. -/
def resume_segment (trk : TimeTracker) (now : ℚ) (segment_id : Int) : TimeTracker :=
  match lookupSession trk.sessions segment_id with
  | none => trk
  | some session =>
      if ¬ session.is_paused then trk
      else if trk.timer_mode ≠ "pet" ∨ ¬ session.is_pet_paused then
        let session :=
          match session.pause_time with
          | some pt =>
              { session with total_paused_time := session.total_paused_time + (now - pt) }
          | none => session
        let session :=
          { session with
              is_paused := false
              pause_time := none
              last_activity := now }
        { trk with sessions := updateSession trk.sessions segment_id session }
      else trk

/-- Embeds `TimeTracker.update_activity`.  When running: a gap over the
threshold adds only the excess to `idle_time` (idle timer enabled),
otherwise the whole gap goes to `active_time`.  `last_activity` is
stamped unconditionally, paused or not. -/
def update_activity (trk : TimeTracker) (now : ℚ) (idleEnabled : Bool)
    (segment_id : Int) : TimeTracker :=
  match lookupSession trk.sessions segment_id with
  | none => trk
  | some session =>
      let time_since_last := now - session.last_activity
      let session :=
        if ¬ session.is_paused then
          if idleEnabled then
            if time_since_last > IDLE_THRESHOLD then
              { session with idle_time := session.idle_time + (time_since_last - IDLE_THRESHOLD) }
            else
              { session with active_time := session.active_time + time_since_last }
          else
            { session with active_time := session.active_time + time_since_last }
        else session
      let session := { session with last_activity := now }
      { trk with sessions := updateSession trk.sessions segment_id session }

/-- Embeds `TimeTracker.get_editing_time`: the stored active time, plus the
live gap since `last_activity` when running and the gap is within the
threshold (or the idle feature is off). -/
def get_editing_time (trk : TimeTracker) (now : ℚ) (idleEnabled : Bool)
    (segment_id : Int) : ℚ :=
  match lookupSession trk.sessions segment_id with
  | none => 0
  | some session =>
      if ¬ session.is_paused then
        let time_since_last := now - session.last_activity
        if time_since_last ≤ IDLE_THRESHOLD ∨ ¬ idleEnabled then
          session.active_time + time_since_last
        else session.active_time
      else session.active_time

/-- Embeds `TimeTracker.check_idle_time`: overwrites `idle_time` with
`gap - threshold` when that is larger than the current `idle_time`;
does not touch `last_activity`.  (The `st.warning` display is a UI side
effect with no tracker state.) -/
def check_idle_time (trk : TimeTracker) (now : ℚ) (idleEnabled : Bool)
    (segment_id : Int) : TimeTracker :=
  if ¬ idleEnabled then trk
  else
    match lookupSession trk.sessions segment_id with
    | none => trk
    | some session =>
        if ¬ session.is_paused then
          let time_since_last := now - session.last_activity
          if time_since_last > IDLE_THRESHOLD then
            let new_idle := time_since_last - IDLE_THRESHOLD
            if new_idle > session.idle_time then
              let session := { session with idle_time := new_idle }
              { trk with sessions := updateSession trk.sessions segment_id session }
            else trk
          else trk
        else trk

/-- Embeds `TimeTracker.pause_pet_timer`: in `"pet"` mode, set the session's
`is_pet_paused` flag and delegate to `pause_segment`. -/
def pause_pet_timer (trk : TimeTracker) (now : ℚ) (idleEnabled : Bool)
    (segment_id : Int) : TimeTracker :=
  match lookupSession trk.sessions segment_id with
  | none => trk
  | some session =>
      if trk.timer_mode = "pet" then
        let session := { session with is_pet_paused := true }
        let trk := { trk with sessions := updateSession trk.sessions segment_id session }
        trk.pause_segment now idleEnabled segment_id
      else trk

/-- Embeds `TimeTracker.start_pet_timer`: in `"pet"` mode, clear the session's
`is_pet_paused` flag and delegate to `resume_segment`. -/
def start_pet_timer (trk : TimeTracker) (now : ℚ) (segment_id : Int) : TimeTracker :=
  match lookupSession trk.sessions segment_id with
  | none => trk
  | some session =>
      if trk.timer_mode = "pet" then
        let session := { session with is_pet_paused := false }
        let trk := { trk with sessions := updateSession trk.sessions segment_id session }
        trk.resume_segment now segment_id
      else trk

/-- Embeds `TimeTracker.is_pet_timer_paused`. -/
def is_pet_timer_paused (trk : TimeTracker) (segment_id : Int) : Bool :=
  match lookupSession trk.sessions segment_id with
  | none => false
  | some session => session.is_pet_paused

end TimeTracker

/-! ## Serialization (`to_dict` / `from_dict`)

A serialized session is a Python dict whose keys may be absent; each
field is wrapped in `Option` (`none` = key absent).  The dict value
stored under `pause_time` is itself optional (`None` in Python), hence
`Option (Option ℚ)`. -/

/-- A (possibly partial) serialized `EditingSession` record. -/
structure SessionDict where
  start_time : Option ℚ := none
  pause_time : Option (Option ℚ) := none
  total_paused_time : Option ℚ := none
  is_paused : Option Bool := none
  last_activity : Option ℚ := none
  active_time : Option ℚ := none
  idle_time : Option ℚ := none
  is_pet_paused : Option Bool := none
  deriving Repr, DecidableEq

/-- Embeds `EditingSession.to_dict`: every key is emitted. -/
def EditingSession.to_dict (s : EditingSession) : SessionDict :=
  { start_time := some s.start_time
    pause_time := some s.pause_time
    total_paused_time := some s.total_paused_time
    is_paused := some s.is_paused
    last_activity := some s.last_activity
    active_time := some s.active_time
    idle_time := some s.idle_time
    is_pet_paused := some s.is_pet_paused }

/-- Embeds `EditingSession.from_dict`: `data['start_time']`, `data['pause_time']`,
`data['total_paused_time']` and `data['is_paused']` raise `KeyError`
when the key is absent (modelled as `Except.error`); the remaining
fields use `data.get(key, default)`, with `data.get('last_activity',
datetime.now())` silently defaulting to the current clock value `now`. -/
def EditingSession.from_dict (now : ℚ) (data : SessionDict) :
    Except String EditingSession :=
  match data.start_time with
  | none => .error "KeyError: start_time"
  | some st =>
    match data.pause_time with
    | none => .error "KeyError: pause_time"
    | some pt =>
      match data.total_paused_time with
      | none => .error "KeyError: total_paused_time"
      | some tpt =>
        match data.is_paused with
        | none => .error "KeyError: is_paused"
        | some ip =>
          .ok
            { start_time := st
              pause_time := pt
              total_paused_time := tpt
              is_paused := ip
              last_activity := data.last_activity.getD now
              active_time := data.active_time.getD 0
              idle_time := data.idle_time.getD 0
              is_pet_paused := data.is_pet_paused.getD false }

/-- A serialized tracker: the `'sessions'` key may be absent.  In the
Python code session keys are written as `str(k)` and read back as
`int(k)`; this composite is the identity on the integer keys the
tracker uses, so the embedding keeps the keys as integers. -/
structure TrackerDict where
  sessions : Option (List (Int × SessionDict)) := none
  deriving Repr, DecidableEq

/-- Embeds `TimeTracker.to_dict`. -/
def TimeTracker.to_dict (trk : TimeTracker) : TrackerDict :=
  { sessions := some (trk.sessions.map (fun p => (p.1, p.2.to_dict))) }

/-- Restores the serialized session map entry by entry (the dict
comprehension inside `TimeTracker.from_dict`), propagating the first
`KeyError`.  In `TimeTracker.from_dict` the mode is set only when
`timer_mode` is truthy (`None` and `""` are falsy) and sessions are
restored only when `data` is truthy and has a `'sessions'` key. -/
def sessionsFromDict (now : ℚ) :
    List (Int × SessionDict) → Except String (List (Int × EditingSession))
  | [] => Except.ok []
  | (k, d) :: rest =>
      match EditingSession.from_dict now d with
      | Except.error e => Except.error e
      | Except.ok s =>
          match sessionsFromDict now rest with
          | Except.error e => Except.error e
          | Except.ok tl => Except.ok ((k, s) :: tl)

/-- Embeds `TimeTracker.from_dict(data, timer_mode)` proper. -/
def TimeTracker.from_dict (now : ℚ) (data : Option TrackerDict)
    (timer_mode : Option String) : Except String TimeTracker :=
  let trk : TimeTracker := {}
  let trk :=
    match timer_mode with
    | some m => if m ≠ "" then trk.set_timer_mode m else trk
    | none => trk
  match data with
  | none => Except.ok trk
  | some d =>
    match d.sessions with
    | none => Except.ok trk
    | some ss =>
        match sessionsFromDict now ss with
        | Except.error e => Except.error e
        | Except.ok sessions => Except.ok { trk with sessions := sessions }

/-! ## Operations as a step type

`Op` packages one call to a mutating tracker method together with the
wall-clock value (and, where the method reads it, the idle-enabled
flag) observed during that call. -/

/-- One mutating tracker call. -/
inductive Op where
  | start (now : ℚ) (id : Int)
  | pause (now : ℚ) (idleEnabled : Bool) (id : Int)
  | resume (now : ℚ) (id : Int)
  | update (now : ℚ) (idleEnabled : Bool) (id : Int)
  | checkIdle (now : ℚ) (idleEnabled : Bool) (id : Int)
  | petPause (now : ℚ) (idleEnabled : Bool) (id : Int)
  | petStart (now : ℚ) (id : Int)
  | setMode (mode : String)
  deriving Repr, DecidableEq

/-- Apply one call to the tracker. -/
def applyOp (trk : TimeTracker) : Op → TimeTracker
  | .start now id => trk.start_segment now id
  | .pause now ie id => trk.pause_segment now ie id
  | .resume now id => trk.resume_segment now id
  | .update now ie id => trk.update_activity now ie id
  | .checkIdle now ie id => trk.check_idle_time now ie id
  | .petPause now ie id => trk.pause_pet_timer now ie id
  | .petStart now id => trk.start_pet_timer now id
  | .setMode m => trk.set_timer_mode m

/-- Apply a sequence of calls, first element first. -/
def applyOps (trk : TimeTracker) : List Op → TimeTracker
  | [] => trk
  | op :: rest => applyOps (applyOp trk op) rest

/-- The session's stored timestamps are not in the future of `now`. -/
def sessionClockOK (s : EditingSession) (now : ℚ) : Bool :=
  decide (s.last_activity ≤ now) && s.pause_time.all (fun pt => decide (pt ≤ now))

/-- No stored timestamp of any session lies in the future of `now`. -/
def TimeTracker.clockOK (trk : TimeTracker) (now : ℚ) : Bool :=
  trk.sessions.all (fun p => sessionClockOK p.2 now)

/-- The clock value observed by a call is not earlier than any
timestamp stored in the tracker (i.e. the call sees no negative
delta). -/
def Op.clockOK (op : Op) (trk : TimeTracker) : Bool :=
  match op with
  | .start now _ => trk.clockOK now
  | .pause now _ _ => trk.clockOK now
  | .resume now _ => trk.clockOK now
  | .update now _ _ => trk.clockOK now
  | .checkIdle now _ _ => trk.clockOK now
  | .petPause now _ _ => trk.clockOK now
  | .petStart now _ => trk.clockOK now
  | .setMode _ => true

/-! ## Basic lemmas about the session map -/

theorem lookup_updateSession (ss : List (Int × EditingSession)) (k : Int)
    (v : EditingSession) (id : Int) :
    lookupSession (updateSession ss k v) id =
      if k = id then some v else lookupSession ss id := by
  induction ss with
  | nil => simp [updateSession, lookupSession]
  | cons hd tl ih =>
    obtain ⟨k0, s0⟩ := hd
    by_cases hk : k0 = k
    · subst hk
      by_cases hid : k0 = id <;> simp [updateSession, lookupSession, hid]
    · by_cases hid : k0 = id
      · subst hid
        have hk2 : ¬ (k = k0) := fun h => hk h.symm
        simp [updateSession, lookupSession, hk, hk2]
      · simp [updateSession, lookupSession, hk, hid, ih]

theorem mem_of_lookupSession {ss : List (Int × EditingSession)} {id : Int}
    {s : EditingSession} (h : lookupSession ss id = some s) : (id, s) ∈ ss := by
  induction ss with
  | nil => simp [lookupSession] at h
  | cons hd tl ih =>
    obtain ⟨k0, s0⟩ := hd
    simp only [lookupSession] at h
    by_cases hk : k0 = id
    · rw [if_pos hk] at h
      injection h with h2
      subst hk; subst h2
      exact List.mem_cons_self _ _
    · rw [if_neg hk] at h
      exact List.mem_cons_of_mem _ (ih h)

theorem current_ne_pet : ("current" = "pet") = False := by
  simp only [eq_iff_iff, iff_false]
  decide

/-! ## Shared concrete inputs for witnesses -/

/-- A running continuous-mode session that started at t = 0. -/
def sessW : EditingSession := { start_time := 0, last_activity := 0 }

/-- A continuous-mode tracker holding `sessW` under segment id 1. -/
def trkW : TimeTracker := { sessions := [(1, sessW)] }

/-- An empty manual-mode tracker. -/
def trkPetW : TimeTracker := { timer_mode := "pet" }

/-! ## Claims -/

/-- C7: on a segment id with no session, `pause_segment`,
`resume_segment`, `update_activity`, `pause_pet_timer` and
`start_pet_timer` leave the tracker unchanged, `get_editing_time`
returns 0, and `start_segment` (the only creator) makes a session
exist.  (All embedded operations are total functions: no operation
throws.) -/
theorem unknown_segment_ops (trk : TimeTracker) (now : ℚ) (ie : Bool) (id : Int)
    (h : lookupSession trk.sessions id = none) :
    trk.pause_segment now ie id = trk ∧
    trk.resume_segment now id = trk ∧
    trk.update_activity now ie id = trk ∧
    trk.pause_pet_timer now ie id = trk ∧
    trk.start_pet_timer now id = trk ∧
    trk.get_editing_time now ie id = 0 ∧
    ∃ s, lookupSession (trk.start_segment now id).sessions id = some s := by
  refine ⟨?_, ?_, ?_, ?_, ?_, ?_, ?_⟩ <;>
    simp [TimeTracker.pause_segment, TimeTracker.resume_segment,
      TimeTracker.update_activity, TimeTracker.pause_pet_timer,
      TimeTracker.start_pet_timer, TimeTracker.get_editing_time,
      TimeTracker.start_segment, h, lookup_updateSession]

/-- Witness for C7 at the empty tracker and id 1. -/
theorem unknown_segment_ops_witness :
    ({} : TimeTracker).pause_segment 5 true 1 = {} ∧
    ({} : TimeTracker).resume_segment 5 1 = {} ∧
    ({} : TimeTracker).update_activity 5 true 1 = {} ∧
    ({} : TimeTracker).pause_pet_timer 5 true 1 = {} ∧
    ({} : TimeTracker).start_pet_timer 5 1 = {} ∧
    ({} : TimeTracker).get_editing_time 5 true 1 = 0 ∧
    ∃ s, lookupSession (({} : TimeTracker).start_segment 5 1).sessions 1 = some s :=
  unknown_segment_ops {} 5 true 1 rfl

/-- C9: `pause_segment` is idempotent: a second call (at any clock time
and any idle-flag value) after a first one is a no-op. -/
theorem pause_segment_idempotent (trk : TimeTracker) (t1 t2 : ℚ)
    (ie1 ie2 : Bool) (id : Int) :
    (trk.pause_segment t1 ie1 id).pause_segment t2 ie2 id =
      trk.pause_segment t1 ie1 id := by
  cases hl : lookupSession trk.sessions id with
  | none =>
    have h1 : trk.pause_segment t1 ie1 id = trk := by
      simp [TimeTracker.pause_segment, hl]
    have h2 : trk.pause_segment t2 ie2 id = trk := by
      simp [TimeTracker.pause_segment, hl]
    rw [h1, h2]
  | some s =>
    by_cases hp : s.is_paused
    · have h1 : trk.pause_segment t1 ie1 id = trk := by
        simp [TimeTracker.pause_segment, hl, hp]
      have h2 : trk.pause_segment t2 ie2 id = trk := by
        simp [TimeTracker.pause_segment, hl, hp]
      rw [h1, h2]
    · simp [TimeTracker.pause_segment, hl, hp, lookup_updateSession]

/-- C10: when the tracker mode is not `"pet"`, `pause_pet_timer` and
`start_pet_timer` leave the whole tracker unchanged, for every segment
id (known or unknown). -/
theorem pet_ops_noop_in_continuous_mode (trk : TimeTracker) (now : ℚ)
    (ie : Bool) (id : Int) (h : trk.timer_mode ≠ "pet") :
    trk.pause_pet_timer now ie id = trk ∧ trk.start_pet_timer now id = trk := by
  cases hl : lookupSession trk.sessions id <;>
    simp [TimeTracker.pause_pet_timer, TimeTracker.start_pet_timer, hl, h]

/-- Witness for C10 at a continuous-mode tracker with a live session. -/
theorem pet_ops_noop_in_continuous_mode_witness :
    trkW.pause_pet_timer 5 true 1 = trkW ∧ trkW.start_pet_timer 5 1 = trkW :=
  pet_ops_noop_in_continuous_mode trkW 5 true 1 (by decide)

/-- C2: in `"pet"` mode, right after `start_segment` creates a session
the manual timer is paused, `get_editing_time` is 0 at every later
clock value (it does not advance), and `resume_segment` alone is a
no-op (it cannot lift the manual pause). -/
theorem manual_mode_gate (trk : TimeTracker) (now : ℚ) (id : Int)
    (hmode : trk.timer_mode = "pet")
    (hfresh : lookupSession trk.sessions id = none) :
    (trk.start_segment now id).is_pet_timer_paused id = true ∧
    (∀ (t : ℚ) (ie : Bool), (trk.start_segment now id).get_editing_time t ie id = 0) ∧
    (∀ (t : ℚ), (trk.start_segment now id).resume_segment t id =
      trk.start_segment now id) := by
  refine ⟨?_, ?_, ?_⟩ <;>
    simp [TimeTracker.start_segment, TimeTracker.is_pet_timer_paused,
      TimeTracker.get_editing_time, TimeTracker.resume_segment,
      hfresh, hmode, lookup_updateSession]

/-- Witness for C2 at the empty `"pet"`-mode tracker and id 1. -/
theorem manual_mode_gate_witness :
    (trkPetW.start_segment 0 1).is_pet_timer_paused 1 = true ∧
    (trkPetW.start_segment 0 1).get_editing_time 100 true 1 = 0 ∧
    (trkPetW.start_segment 0 1).resume_segment 100 1 = trkPetW.start_segment 0 1 :=
  ⟨(manual_mode_gate trkPetW 0 1 rfl rfl).1,
   (manual_mode_gate trkPetW 0 1 rfl rfl).2.1 100 true,
   (manual_mode_gate trkPetW 0 1 rfl rfl).2.2 100⟩

/-- C8: continuous-mode scenario (for every idle-flag state):
`start_segment(1)` at t=0, `update_activity(1)` at t=10 gives
`active_time = 10`; `pause_segment(1)` at t=15 gives `active_time = 15`;
`resume_segment(1)` at t=20 gives `total_paused_time = 5`; and
`get_editing_time(1)` at t=20 returns 15 (paused time excluded). -/
theorem continuous_pause_resume_scenario (ie1 ie2 ie3 : Bool) :
    ((lookupSession ((({} : TimeTracker).start_segment 0 1).update_activity
        10 ie1 1).sessions 1).map EditingSession.active_time = some 10) ∧
    ((lookupSession (((({} : TimeTracker).start_segment 0 1).update_activity
        10 ie1 1).pause_segment 15 ie2 1).sessions 1).map
        EditingSession.active_time = some 15) ∧
    ((lookupSession ((((({} : TimeTracker).start_segment 0 1).update_activity
        10 ie1 1).pause_segment 15 ie2 1).resume_segment 20 1).sessions 1).map
        EditingSession.total_paused_time = some 5) ∧
    ((((({} : TimeTracker).start_segment 0 1).update_activity
        10 ie1 1).pause_segment 15 ie2 1).resume_segment 20 1).get_editing_time
        20 ie3 1 = 15 := by
  cases ie1 <;> cases ie2 <;> cases ie3 <;>
    norm_num [TimeTracker.start_segment, TimeTracker.update_activity,
      TimeTracker.pause_segment, TimeTracker.resume_segment,
      TimeTracker.get_editing_time, lookupSession, updateSession,
      IDLE_THRESHOLD, current_ne_pet]

/-- The idle scenario of C1: continuous mode, idle timer enabled,
`start_segment(1)` at t=0 followed by `update_activity(1)` at t=50. -/
def idleScenarioRun : TimeTracker :=
  (({} : TimeTracker).start_segment 0 1).update_activity 50 true 1

/-- C1 counterexample: in the claimed scenario (start at t=0, update at
t=50, threshold 30) the code adds the excess 20 to `idle_time` but adds
nothing to `active_time`: `active_time` is 0, not the claimed 30. -/
theorem idle_split_counterexample :
    (lookupSession idleScenarioRun.sessions 1).map EditingSession.idle_time =
        some 20 ∧
    (lookupSession idleScenarioRun.sessions 1).map EditingSession.active_time =
        some 0 ∧
    ¬ ((lookupSession idleScenarioRun.sessions 1).map EditingSession.active_time =
        some 30) := by
  norm_num [idleScenarioRun, TimeTracker.start_segment, TimeTracker.update_activity,
    lookupSession, updateSession, IDLE_THRESHOLD, current_ne_pet]

/-- C1 (amended): with the idle timer enabled and threshold 30, an
`update_activity` on a running session after a gap of exactly 30 adds 0
to `idle_time` and 30 to `active_time`; after a gap of 45 it adds 15 to
`idle_time` and nothing to `active_time` (the remaining 30 are dropped,
not credited as active); hence the scenario start at t=0 / update at
t=50 yields `idle_time = 20` and `active_time = 0`. -/
theorem update_activity_idle_split (trk : TimeTracker) (id : Int)
    (s : EditingSession) (hs : lookupSession trk.sessions id = some s)
    (hrun : s.is_paused = false) :
    ((lookupSession (trk.update_activity (s.last_activity + 30) true id).sessions
        id).map EditingSession.idle_time = some s.idle_time ∧
     (lookupSession (trk.update_activity (s.last_activity + 30) true id).sessions
        id).map EditingSession.active_time = some (s.active_time + 30)) ∧
    ((lookupSession (trk.update_activity (s.last_activity + 45) true id).sessions
        id).map EditingSession.idle_time = some (s.idle_time + 15) ∧
     (lookupSession (trk.update_activity (s.last_activity + 45) true id).sessions
        id).map EditingSession.active_time = some s.active_time) ∧
    ((lookupSession idleScenarioRun.sessions 1).map EditingSession.idle_time =
        some 20 ∧
     (lookupSession idleScenarioRun.sessions 1).map EditingSession.active_time =
        some 0) := by
  refine ⟨⟨?_, ?_⟩, ⟨?_, ?_⟩, ?_, ?_⟩ <;>
    norm_num [idleScenarioRun, TimeTracker.start_segment,
      TimeTracker.update_activity, lookupSession, updateSession,
      lookup_updateSession, IDLE_THRESHOLD, current_ne_pet, hs, hrun,
      add_sub_cancel_left]

/-- Witness for C1's amended theorem at a concrete running session. -/
theorem update_activity_idle_split_witness :
    ((lookupSession (trkW.update_activity (sessW.last_activity + 30) true 1).sessions
        1).map EditingSession.idle_time = some sessW.idle_time ∧
     (lookupSession (trkW.update_activity (sessW.last_activity + 30) true 1).sessions
        1).map EditingSession.active_time = some (sessW.active_time + 30)) ∧
    ((lookupSession (trkW.update_activity (sessW.last_activity + 45) true 1).sessions
        1).map EditingSession.idle_time = some (sessW.idle_time + 15) ∧
     (lookupSession (trkW.update_activity (sessW.last_activity + 45) true 1).sessions
        1).map EditingSession.active_time = some sessW.active_time) ∧
    ((lookupSession idleScenarioRun.sessions 1).map EditingSession.idle_time =
        some 20 ∧
     (lookupSession idleScenarioRun.sessions 1).map EditingSession.active_time =
        some 0) :=
  update_activity_idle_split trkW 1 sessW rfl rfl

/-- Serialized session record whose last-activity timestamp is missing
but whose four strictly-required keys are present. -/
def missingLastActivity : SessionDict :=
  { start_time := some 0, pause_time := some none,
    total_paused_time := some 0, is_paused := some false }

/-- C5 counterexample: deserializing a session record whose
last-activity timestamp is missing does not fail; it silently
substitutes the current clock value (7 here) for `last_activity`. -/
theorem from_dict_missing_last_activity_silently_defaults :
    EditingSession.from_dict 7 missingLastActivity =
      Except.ok { start_time := 0, pause_time := none, total_paused_time := 0,
                  is_paused := false, last_activity := 7 } := rfl

/-- C5 (amended): `EditingSession.from_dict` fails (with a KeyError)
exactly when one of `start_time`, `pause_time`, `total_paused_time`,
`is_paused` is missing; when those four are present it succeeds, with a
missing `last_activity` silently defaulted to the current clock value
and `active_time` / `idle_time` / `is_pet_paused` defaulted to 0 / 0 /
false. -/
theorem from_dict_required_fields_and_defaults (now : ℚ) (d : SessionDict) :
    ((d.start_time = none ∨ d.pause_time = none ∨ d.total_paused_time = none ∨
        d.is_paused = none) →
      ∃ msg, EditingSession.from_dict now d = Except.error msg) ∧
    (∀ (st : ℚ) (pt : Option ℚ) (tpt : ℚ) (ip : Bool),
      d.start_time = some st → d.pause_time = some pt →
      d.total_paused_time = some tpt → d.is_paused = some ip →
      EditingSession.from_dict now d = Except.ok
        { start_time := st, pause_time := pt, total_paused_time := tpt,
          is_paused := ip, last_activity := d.last_activity.getD now,
          active_time := d.active_time.getD 0, idle_time := d.idle_time.getD 0,
          is_pet_paused := d.is_pet_paused.getD false }) := by
  constructor
  · intro h
    rcases hst : d.start_time with _ | st
    · exact ⟨"KeyError: start_time", by simp [EditingSession.from_dict, hst]⟩
    rcases hpt : d.pause_time with _ | pt
    · exact ⟨"KeyError: pause_time", by simp [EditingSession.from_dict, hst, hpt]⟩
    rcases htpt : d.total_paused_time with _ | tpt
    · exact ⟨"KeyError: total_paused_time",
        by simp [EditingSession.from_dict, hst, hpt, htpt]⟩
    rcases hip : d.is_paused with _ | ip
    · exact ⟨"KeyError: is_paused",
        by simp [EditingSession.from_dict, hst, hpt, htpt, hip]⟩
    · simp_all
  · intro st pt tpt ip hst hpt htpt hip
    simp [EditingSession.from_dict, hst, hpt, htpt, hip]

/-- Serialized record with the four required keys and nothing else. -/
def requiredOnlyDict : SessionDict :=
  { start_time := some 2, pause_time := some none,
    total_paused_time := some 3, is_paused := some false }

/-- Witness for C5's amended theorem: an all-absent record errors, and
a required-only record succeeds with the documented defaults. -/
theorem from_dict_required_fields_and_defaults_witness :
    (∃ msg, EditingSession.from_dict 5 ({} : SessionDict) = Except.error msg) ∧
    EditingSession.from_dict 5 requiredOnlyDict = Except.ok
      { start_time := 2, pause_time := none, total_paused_time := 3,
        is_paused := false, last_activity := requiredOnlyDict.last_activity.getD 5,
        active_time := requiredOnlyDict.active_time.getD 0,
        idle_time := requiredOnlyDict.idle_time.getD 0,
        is_pet_paused := requiredOnlyDict.is_pet_paused.getD false } :=
  ⟨(from_dict_required_fields_and_defaults 5 {}).1 (Or.inl rfl),
   (from_dict_required_fields_and_defaults 5 requiredOnlyDict).2
     2 none 3 false rfl rfl rfl rfl⟩

theorem session_from_dict_to_dict (now : ℚ) (s : EditingSession) :
    EditingSession.from_dict now s.to_dict = Except.ok s := rfl

theorem sessionsFromDict_roundtrip (now : ℚ)
    (ss : List (Int × EditingSession)) :
    sessionsFromDict now (ss.map (fun p => (p.1, p.2.to_dict))) =
      Except.ok ss := by
  induction ss with
  | nil => rfl
  | cons hd tl ih =>
    simp only [List.map_cons, sessionsFromDict, session_from_dict_to_dict, ih]

/-- C3: deserializing `to_dict trk` with the tracker's own mode
succeeds and yields a tracker whose `get_editing_time` agrees with the
original on every segment id, at every common clock value and idle-flag
state. -/
theorem serialize_roundtrip (trk : TimeTracker) (now : ℚ) :
    ∃ trk2, TimeTracker.from_dict now (some trk.to_dict) (some trk.timer_mode) =
        Except.ok trk2 ∧
      ∀ (t : ℚ) (ie : Bool) (id : Int),
        trk2.get_editing_time t ie id = trk.get_editing_time t ie id := by
  by_cases hm : trk.timer_mode = ""
  · refine ⟨{ sessions := trk.sessions }, ?_, fun t ie id => rfl⟩
    simp [TimeTracker.from_dict, TimeTracker.to_dict, TimeTracker.set_timer_mode,
      sessionsFromDict_roundtrip, hm]
  · refine ⟨{ sessions := trk.sessions, timer_mode := trk.timer_mode }, ?_,
      fun t ie id => rfl⟩
    simp [TimeTracker.from_dict, TimeTracker.to_dict, TimeTracker.set_timer_mode,
      sessionsFromDict_roundtrip, hm]

/-- Run of C4's failing input: `start_segment(1)` at t=0,
`check_idle_time(1)` at t=100, then `update_activity(1)` at t=100, idle
timer enabled throughout. -/
def doubleCountRun : TimeTracker :=
  ((({} : TimeTracker).start_segment 0 1).check_idle_time 100 true 1).update_activity
    100 true 1

/-- C4 (code bug): in the run `doubleCountRun` the session's
`active_time + idle_time` reaches 140, exceeding the 100 seconds of
wall clock elapsed since `start_segment` minus `total_paused_time`
(= 0): `check_idle_time` records the 70-second idle excess but leaves
`last_activity` untouched, so the immediately following
`update_activity` counts the same excess a second time. -/
theorem check_idle_update_double_count :
    ∃ s, lookupSession doubleCountRun.sessions 1 = some s ∧
      s.start_time = 0 ∧ s.total_paused_time = 0 ∧
      s.active_time + s.idle_time = 140 ∧
      ¬ (s.active_time + s.idle_time ≤ 100 - s.start_time - s.total_paused_time) := by
  refine ⟨{ start_time := 0, pause_time := none, total_paused_time := 0,
            is_paused := false, last_activity := 100, active_time := 0,
            idle_time := 140, is_pet_paused := false }, ?_, rfl, rfl, ?_, ?_⟩
  · norm_num [doubleCountRun, TimeTracker.start_segment,
      TimeTracker.check_idle_time, TimeTracker.update_activity, lookupSession,
      updateSession, IDLE_THRESHOLD, current_ne_pet]
  · norm_num
  · norm_num

/-- Run with a clock that goes backwards: `start_segment(1)` at t=0,
`update_activity(1)` at t=10, then `update_activity(1)` at t=5. -/
def backwardsClockRun : TimeTracker :=
  ((({} : TimeTracker).start_segment 0 1).update_activity 10 true 1).update_activity
    5 true 1

/-- C6 counterexample: the code does not clamp negative deltas.  After
`update_activity` at t=10 the session has `active_time = 10`; a further
`update_activity` at t=5 (clock earlier than `last_activity`) adds the
negative gap and `active_time` falls to 5. -/
theorem negative_delta_decrements_active_time :
    (lookupSession ((({} : TimeTracker).start_segment 0 1).update_activity
        10 true 1).sessions 1).map EditingSession.active_time = some 10 ∧
    (lookupSession backwardsClockRun.sessions 1).map EditingSession.active_time =
      some 5 ∧
    ¬ ((10 : ℚ) ≤ 5) := by
  norm_num [backwardsClockRun, TimeTracker.start_segment,
    TimeTracker.update_activity, lookupSession, updateSession, IDLE_THRESHOLD,
    current_ne_pet]

/-! ## Monotonicity of the cumulative counters (C6, amended) -/

/-- Pointwise comparison of the three cumulative counters. -/
def countersLE (s1 s2 : EditingSession) : Prop :=
  s1.active_time ≤ s2.active_time ∧ s1.idle_time ≤ s2.idle_time ∧
    s1.total_paused_time ≤ s2.total_paused_time

theorem countersLE_refl (s : EditingSession) : countersLE s s :=
  ⟨le_refl _, le_refl _, le_refl _⟩

theorem countersLE_trans {s1 s2 s3 : EditingSession} (h1 : countersLE s1 s2)
    (h2 : countersLE s2 s3) : countersLE s1 s3 :=
  ⟨le_trans h1.1 h2.1, le_trans h1.2.1 h2.2.1, le_trans h1.2.2 h2.2.2⟩

theorem sessionClock_of_lookup {trk : TimeTracker} {now : ℚ} {id : Int}
    {s : EditingSession} (h : trk.clockOK now = true)
    (hs : lookupSession trk.sessions id = some s) :
    s.last_activity ≤ now ∧ ∀ pt, s.pause_time = some pt → pt ≤ now := by
  have hall := List.all_eq_true.mp h _ (mem_of_lookupSession hs)
  unfold sessionClockOK at hall
  rw [Bool.and_eq_true, decide_eq_true_eq] at hall
  refine ⟨hall.1, fun pt hpt => ?_⟩
  have h2 := hall.2
  rw [hpt] at h2
  simpa using h2

theorem exists_lookup_update {trk : TimeTracker} {tid : Int}
    {s0 v : EditingSession} (h0 : lookupSession trk.sessions tid = some s0)
    (hle : countersLE s0 v) {id : Int} {s : EditingSession}
    (hs : lookupSession trk.sessions id = some s) :
    ∃ s2, lookupSession (updateSession trk.sessions tid v) id = some s2 ∧
      countersLE s s2 := by
  rw [lookup_updateSession]
  by_cases hid : tid = id
  · subst hid
    rw [h0] at hs
    injection hs with h2
    subst h2
    exact ⟨v, by simp, hle⟩
  · exact ⟨s, by simp [hid, hs], countersLE_refl s⟩

theorem all_clockOK_updateSession {ss : List (Int × EditingSession)} {now : ℚ}
    (h : ss.all (fun p => sessionClockOK p.2 now) = true) (tid : Int)
    {v : EditingSession} (hv : sessionClockOK v now = true) :
    (updateSession ss tid v).all (fun p => sessionClockOK p.2 now) = true := by
  induction ss with
  | nil => simp [updateSession, hv]
  | cons hd tl ih =>
    obtain ⟨k0, s0⟩ := hd
    rw [List.all_cons, Bool.and_eq_true] at h
    by_cases hk : k0 = tid
    · simp [updateSession, hk, hv, h.2]
    · simp only [updateSession, if_neg hk, List.all_cons, Bool.and_eq_true]
      exact ⟨h.1, ih h.2⟩

theorem start_segment_mono {trk : TimeTracker} {now : ℚ} {tid : Int}
    {id : Int} {s : EditingSession}
    (hs : lookupSession trk.sessions id = some s) :
    ∃ s2, lookupSession (trk.start_segment now tid).sessions id = some s2 ∧
      countersLE s s2 := by
  unfold TimeTracker.start_segment
  cases hl : lookupSession trk.sessions tid with
  | none =>
    simp only [lookup_updateSession]
    by_cases hid : tid = id
    · subst hid; rw [hl] at hs; cases hs
    · exact ⟨s, by simp [hid, hs], countersLE_refl s⟩
  | some s0 =>
    by_cases hc : trk.timer_mode = "pet" ∧ ¬ s0.is_pet_paused = true
    · simp only [if_pos hc]
      refine exists_lookup_update hl ?_ hs
      exact ⟨le_refl _, le_refl _, le_refl _⟩
    · simp only [if_neg hc]
      exact ⟨s, hs, countersLE_refl s⟩

theorem pause_segment_mono {trk : TimeTracker} {now : ℚ} {ie : Bool} {tid : Int}
    (h : trk.clockOK now = true) {id : Int} {s : EditingSession}
    (hs : lookupSession trk.sessions id = some s) :
    ∃ s2, lookupSession (trk.pause_segment now ie tid).sessions id = some s2 ∧
      countersLE s s2 := by
  unfold TimeTracker.pause_segment
  cases hl : lookupSession trk.sessions tid with
  | none => exact ⟨s, hs, countersLE_refl s⟩
  | some s0 =>
    by_cases hp : s0.is_paused = true
    · simp only [if_pos hp]
      exact ⟨s, hs, countersLE_refl s⟩
    · have hd : 0 ≤ now - s0.last_activity :=
        sub_nonneg.mpr (sessionClock_of_lookup h hl).1
      simp only [if_neg hp]
      by_cases hc : now - s0.last_activity ≤ IDLE_THRESHOLD ∨ ¬ ie = true
      · simp only [if_pos hc]
        refine exists_lookup_update hl ?_ hs
        exact ⟨le_add_of_nonneg_right hd, le_refl _, le_refl _⟩
      · simp only [if_neg hc]
        refine exists_lookup_update hl ?_ hs
        exact ⟨le_refl _, le_refl _, le_refl _⟩

theorem resume_segment_mono {trk : TimeTracker} {now : ℚ} {tid : Int}
    (h : trk.clockOK now = true) {id : Int} {s : EditingSession}
    (hs : lookupSession trk.sessions id = some s) :
    ∃ s2, lookupSession (trk.resume_segment now tid).sessions id = some s2 ∧
      countersLE s s2 := by
  unfold TimeTracker.resume_segment
  cases hl : lookupSession trk.sessions tid with
  | none => exact ⟨s, hs, countersLE_refl s⟩
  | some s0 =>
    by_cases hp : ¬ s0.is_paused = true
    · simp only [if_pos hp]
      exact ⟨s, hs, countersLE_refl s⟩
    · simp only [if_neg hp]
      by_cases hc : trk.timer_mode ≠ "pet" ∨ ¬ s0.is_pet_paused = true
      · simp only [if_pos hc]
        cases hpt : s0.pause_time with
        | none =>
          refine exists_lookup_update hl ?_ hs
          exact ⟨le_refl _, le_refl _, le_refl _⟩
        | some pt =>
          have hd : 0 ≤ now - pt :=
            sub_nonneg.mpr ((sessionClock_of_lookup h hl).2 pt hpt)
          refine exists_lookup_update hl ?_ hs
          exact ⟨le_refl _, le_refl _, le_add_of_nonneg_right hd⟩
      · simp only [if_neg hc]
        exact ⟨s, hs, countersLE_refl s⟩

theorem update_activity_mono {trk : TimeTracker} {now : ℚ} {ie : Bool}
    {tid : Int} (h : trk.clockOK now = true) {id : Int} {s : EditingSession}
    (hs : lookupSession trk.sessions id = some s) :
    ∃ s2, lookupSession (trk.update_activity now ie tid).sessions id = some s2 ∧
      countersLE s s2 := by
  unfold TimeTracker.update_activity
  cases hl : lookupSession trk.sessions tid with
  | none => exact ⟨s, hs, countersLE_refl s⟩
  | some s0 =>
    have hd : 0 ≤ now - s0.last_activity :=
      sub_nonneg.mpr (sessionClock_of_lookup h hl).1
    by_cases hp : ¬ s0.is_paused = true
    · simp only [if_pos hp]
      by_cases hie : ie = true
      · simp only [if_pos hie]
        by_cases hc : now - s0.last_activity > IDLE_THRESHOLD
        · simp only [if_pos hc]
          have hd30 : 0 ≤ now - s0.last_activity - IDLE_THRESHOLD :=
            le_of_lt (sub_pos.mpr hc)
          refine exists_lookup_update hl ?_ hs
          exact ⟨le_refl _, le_add_of_nonneg_right hd30, le_refl _⟩
        · simp only [if_neg hc]
          refine exists_lookup_update hl ?_ hs
          exact ⟨le_add_of_nonneg_right hd, le_refl _, le_refl _⟩
      · simp only [if_neg hie]
        refine exists_lookup_update hl ?_ hs
        exact ⟨le_add_of_nonneg_right hd, le_refl _, le_refl _⟩
    · simp only [if_neg hp]
      refine exists_lookup_update hl ?_ hs
      exact ⟨le_refl _, le_refl _, le_refl _⟩

theorem check_idle_time_mono {trk : TimeTracker} {now : ℚ} {ie : Bool}
    {tid : Int} {id : Int} {s : EditingSession}
    (hs : lookupSession trk.sessions id = some s) :
    ∃ s2, lookupSession (trk.check_idle_time now ie tid).sessions id = some s2 ∧
      countersLE s s2 := by
  unfold TimeTracker.check_idle_time
  by_cases hie : ¬ ie = true
  · simp only [if_pos hie]
    exact ⟨s, hs, countersLE_refl s⟩
  · simp only [if_neg hie]
    cases hl : lookupSession trk.sessions tid with
    | none => exact ⟨s, hs, countersLE_refl s⟩
    | some s0 =>
      by_cases hp : ¬ s0.is_paused = true
      · simp only [if_pos hp]
        by_cases hc : now - s0.last_activity > IDLE_THRESHOLD
        · simp only [if_pos hc]
          by_cases hn : now - s0.last_activity - IDLE_THRESHOLD > s0.idle_time
          · simp only [if_pos hn]
            refine exists_lookup_update hl ?_ hs
            exact ⟨le_refl _, le_of_lt hn, le_refl _⟩
          · simp only [if_neg hn]
            exact ⟨s, hs, countersLE_refl s⟩
        · simp only [if_neg hc]
          exact ⟨s, hs, countersLE_refl s⟩
      · simp only [if_neg hp]
        exact ⟨s, hs, countersLE_refl s⟩

theorem pause_pet_timer_mono {trk : TimeTracker} {now : ℚ} {ie : Bool}
    {tid : Int} (h : trk.clockOK now = true) {id : Int} {s : EditingSession}
    (hs : lookupSession trk.sessions id = some s) :
    ∃ s2, lookupSession (trk.pause_pet_timer now ie tid).sessions id = some s2 ∧
      countersLE s s2 := by
  unfold TimeTracker.pause_pet_timer
  cases hl : lookupSession trk.sessions tid with
  | none => exact ⟨s, hs, countersLE_refl s⟩
  | some s0 =>
    by_cases hm : trk.timer_mode = "pet"
    · simp only [if_pos hm]
      have hv : sessionClockOK { s0 with is_pet_paused := true } now = true :=
        List.all_eq_true.mp h _ (mem_of_lookupSession hl)
      have h1 : TimeTracker.clockOK
          { trk with sessions :=
              updateSession trk.sessions tid { s0 with is_pet_paused := true } }
          now = true :=
        all_clockOK_updateSession h tid hv
      obtain ⟨s1, hs1, hle1⟩ :=
        exists_lookup_update hl
          (⟨le_refl _, le_refl _, le_refl _⟩ :
            countersLE s0 { s0 with is_pet_paused := true }) hs
      obtain ⟨s2, hs2, hle2⟩ := pause_segment_mono h1 hs1
      exact ⟨s2, hs2, countersLE_trans hle1 hle2⟩
    · simp only [if_neg hm]
      exact ⟨s, hs, countersLE_refl s⟩

theorem start_pet_timer_mono {trk : TimeTracker} {now : ℚ} {tid : Int}
    (h : trk.clockOK now = true) {id : Int} {s : EditingSession}
    (hs : lookupSession trk.sessions id = some s) :
    ∃ s2, lookupSession (trk.start_pet_timer now tid).sessions id = some s2 ∧
      countersLE s s2 := by
  unfold TimeTracker.start_pet_timer
  cases hl : lookupSession trk.sessions tid with
  | none => exact ⟨s, hs, countersLE_refl s⟩
  | some s0 =>
    by_cases hm : trk.timer_mode = "pet"
    · simp only [if_pos hm]
      have hv : sessionClockOK { s0 with is_pet_paused := false } now = true :=
        List.all_eq_true.mp h _ (mem_of_lookupSession hl)
      have h1 : TimeTracker.clockOK
          { trk with sessions :=
              updateSession trk.sessions tid { s0 with is_pet_paused := false } }
          now = true :=
        all_clockOK_updateSession h tid hv
      obtain ⟨s1, hs1, hle1⟩ :=
        exists_lookup_update hl
          (⟨le_refl _, le_refl _, le_refl _⟩ :
            countersLE s0 { s0 with is_pet_paused := false }) hs
      obtain ⟨s2, hs2, hle2⟩ := resume_segment_mono h1 hs1
      exact ⟨s2, hs2, countersLE_trans hle1 hle2⟩
    · simp only [if_neg hm]
      exact ⟨s, hs, countersLE_refl s⟩

/-- C6 (amended): across every single tracker operation whose observed
clock value is not earlier than any stored timestamp (non-negative
deltas), the cumulative counters `active_time`, `idle_time` and
`total_paused_time` of every existing session never decrease.  (As
`negative_delta_decrements_active_time` shows, the code does not clamp
negative deltas, so this fails for a backwards clock.) -/
theorem counters_monotone_of_clockOK (op : Op) (trk : TimeTracker)
    (h : op.clockOK trk = true) (id : Int) (s : EditingSession)
    (hs : lookupSession trk.sessions id = some s) :
    ∃ s2, lookupSession (applyOp trk op).sessions id = some s2 ∧
      s.active_time ≤ s2.active_time ∧ s.idle_time ≤ s2.idle_time ∧
      s.total_paused_time ≤ s2.total_paused_time := by
  cases op with
  | start now tid => exact start_segment_mono hs
  | pause now ie tid => exact pause_segment_mono h hs
  | resume now tid => exact resume_segment_mono h hs
  | update now ie tid => exact update_activity_mono h hs
  | checkIdle now ie tid => exact check_idle_time_mono hs
  | petPause now ie tid => exact pause_pet_timer_mono h hs
  | petStart now tid => exact start_pet_timer_mono h hs
  | setMode m => exact ⟨s, hs, le_refl _, le_refl _, le_refl _⟩

/-- Witness for C6's amended theorem: an `update_activity` at t=5 on a
session whose timestamps are at 0. -/
theorem counters_monotone_of_clockOK_witness :
    ∃ s2, lookupSession (applyOp trkW (Op.update 5 true 1)).sessions 1 = some s2 ∧
      sessW.active_time ≤ s2.active_time ∧ sessW.idle_time ≤ s2.idle_time ∧
      sessW.total_paused_time ≤ s2.total_paused_time :=
  counters_monotone_of_clockOK (Op.update 5 true 1) trkW (by decide) 1 sessW rfl

end UniOrPET
